import Mathlib

/-!
# Chroma color engine: verification development

Shallow embedding of the ChromaVoid color-scheme engine
(`src/services/advancedColorGenerator.ts`, `predefinedPalettes.ts`,
`paletteOptimizer.ts`, `perceptualColor.ts`, `colorAnalyzer.ts`).

Conventions:
* JavaScript numbers are embedded as exact rationals (`ℚ`); the 32-bit
  integer operations of the seeded generator (`<<`, `|0`, `Math.imul`,
  `>>> 0`) are embedded on `ℤ` with explicit wrapping, matching the
  two's-complement semantics of JS bit operations.
* The transcendental `Math` primitives (`pow`, `cbrt`, `sqrt`, trigonometric
  functions) have no exact rational semantics; they are abstracted as a
  `FloatOps` record of rational-valued functions, and every theorem about
  code that consumes them is quantified over all such records.
* `new Date().toISOString()` is an external input; functions that call it
  take the observed timestamp as an explicit `now : String` argument.
-/

namespace Chroma

/-! ## JS numeric primitives -/

/-- `x >>> 0`: reinterpret a 32-bit signed value as unsigned. -/
def toUInt32 (n : ℤ) : ℤ := n % 4294967296

/-- `x | 0` / `Math.imul` result range: wrap to signed 32-bit. -/
def toInt32 (n : ℤ) : ℤ := ((n + 2147483648) % 4294967296) - 2147483648

/-- JS `%` on numbers: remainder with the sign of the dividend. -/
def jsRem (a n : ℚ) : ℚ :=
  if 0 ≤ a then a - n * (⌊a / n⌋ : ℤ) else -((-a) - n * (⌊(-a) / n⌋ : ℤ))

/-- JS `Math.round`: round half toward positive infinity. -/
def jsRound (q : ℚ) : ℤ := ⌊q + 1/2⌋

/-! ## Seeded deterministic generator (`createSeededRandom`) -/

/-- One step of the seed fold:
`hash = ((hash << 5) - hash) + charCode; hash |= 0`.
JS `<<` itself wraps its result to signed 32 bits. -/
def seedHashStep (h : ℤ) (c : ℕ) : ℤ := toInt32 (toInt32 (h * 32) - h + c)

/-- The character codes of a seed string.  (`charCodeAt` yields UTF-16 code
units; for the code points below `0x10000` exercised here this agrees with
`Char.toNat`.) -/
def seedCodes (s : String) : List ℕ := s.data.map Char.toNat

/-- Fold the seed's character codes into the initial 32-bit signed hash. -/
def seedHash (codes : List ℕ) : ℤ := codes.foldl seedHashStep 0

/-- Initial generator state for a seed string. -/
def seedStateOf (s : String) : ℤ := seedHash (seedCodes s)

/-- One draw's state update: `hash = Math.imul(48271, hash) | 0`. -/
def rngNext (h : ℤ) : ℤ := toInt32 (48271 * h)

/-- The value returned by a draw: `(hash >>> 0) / 4294967296`. -/
def rngValue (h : ℤ) : ℚ := ((toUInt32 h : ℤ) : ℚ) / 4294967296

/-- Generator state after `n` draws. -/
def rngState (h₀ : ℤ) : ℕ → ℤ
  | 0 => h₀
  | n + 1 => rngNext (rngState h₀ n)

/-- The `n`-th value (0-indexed) drawn from initial state `h₀`:
each call first advances the hash, then reads it. -/
def rngDraw (h₀ : ℤ) (n : ℕ) : ℚ := rngValue (rngState h₀ (n + 1))

/-- The seed-fold step exactly as the spec words it:
`hash = ((hash<<5) - hash) + charCode`, wrapped to 32 bits at each step
(one signed wrap of the whole expression). -/
def specSeedStep (h : ℤ) (c : ℕ) : ℤ := toInt32 ((h * 32 - h) + c)

lemma toInt32_emod (x : ℤ) : toInt32 x % 4294967296 = x % 4294967296 := by
  unfold toInt32; omega

lemma toInt32_congr {x y : ℤ} (h : x % 4294967296 = y % 4294967296) :
    toInt32 x = toInt32 y := by
  unfold toInt32; omega

lemma seedHashStep_eq_spec (h : ℤ) (c : ℕ) : seedHashStep h c = specSeedStep h c := by
  unfold seedHashStep specSeedStep
  apply toInt32_congr
  have h32 := toInt32_emod (h * 32)
  omega

lemma foldl_seedHashStep_eq_spec (l : List ℕ) :
    ∀ h : ℤ, l.foldl seedHashStep h = l.foldl specSeedStep h := by
  induction l with
  | nil => intro h; rfl
  | cons a t ih =>
      intro h
      simp only [List.foldl_cons, seedHashStep_eq_spec, ih]

lemma toUInt32_nonneg (x : ℤ) : 0 ≤ toUInt32 x :=
  Int.emod_nonneg x (by norm_num)

lemma toUInt32_lt (x : ℤ) : toUInt32 x < 4294967296 :=
  Int.emod_lt_of_pos x (by norm_num)

lemma rngValue_nonneg (h : ℤ) : 0 ≤ rngValue h := by
  unfold rngValue
  apply div_nonneg _ (by norm_num)
  exact_mod_cast toUInt32_nonneg h

lemma rngValue_lt_one (h : ℤ) : rngValue h < 1 := by
  unfold rngValue
  rw [div_lt_one (by norm_num)]
  exact_mod_cast toUInt32_lt h

lemma rngState_zero_fixed : ∀ n : ℕ, rngState 0 n = 0 := by
  intro n
  induction n with
  | zero => rfl
  | succ k ih => simp only [rngState, ih]; rfl

/-- Claim C4: the seeded generator is initialized by folding the seed's
character codes through `hash = ((hash<<5) - hash) + charCode` with 32-bit
signed wrapping at each step; every draw updates the hash to the 32-bit
signed-wrapped product `48271 * hash` and returns the unsigned
reinterpretation divided by `2^32`, a value in `[0,1)`; and generators built
from equal seed strings produce equal draw sequences. -/
theorem seeded_random_matches_spec :
    (∀ codes : List ℕ, seedHash codes = codes.foldl specSeedStep 0) ∧
    (∀ h : ℤ, rngNext h = toInt32 (48271 * h)) ∧
    (∀ h₀ : ℤ, ∀ n : ℕ,
      rngDraw h₀ n = ((toUInt32 (rngState h₀ (n + 1)) : ℤ) : ℚ) / 4294967296 ∧
      0 ≤ rngDraw h₀ n ∧ rngDraw h₀ n < 1) ∧
    (∀ s t : String, s = t → ∀ n : ℕ,
      rngDraw (seedStateOf s) n = rngDraw (seedStateOf t) n) := by
  refine ⟨fun codes => foldl_seedHashStep_eq_spec codes 0,
          fun h => rfl,
          fun h₀ n => ⟨rfl, rngValue_nonneg _, rngValue_lt_one _⟩,
          fun s t hst n => by rw [hst]⟩

/-- Witness for C4 at concrete inputs. -/
theorem seeded_random_matches_spec_witness :
    (0 ≤ rngDraw (seedStateOf "chroma") 0 ∧ rngDraw (seedStateOf "chroma") 0 < 1) ∧
    rngDraw (seedStateOf "chroma") 3 = rngDraw (seedStateOf "chroma") 3 :=
  ⟨⟨(seeded_random_matches_spec.2.2.1 (seedStateOf "chroma") 0).2.1,
    (seeded_random_matches_spec.2.2.1 (seedStateOf "chroma") 0).2.2⟩,
   seeded_random_matches_spec.2.2.2 "chroma" "chroma" rfl 3⟩

/-- Claim C10: the empty seed string hashes to 0, and for any seed whose
character-code fold hashes to 0 every draw of the generator returns exactly
0 — the jitter stream is the constant-zero sequence. -/
theorem zero_hash_constant_stream :
    seedStateOf "" = 0 ∧
    (∀ s : String, seedStateOf s = 0 → ∀ n : ℕ, rngDraw (seedStateOf s) n = 0) := by
  constructor
  · rfl
  · intro s hs n
    rw [hs]
    unfold rngDraw
    rw [rngState_zero_fixed]
    norm_num [rngValue, toUInt32]

/-- Witness for C10: with the empty seed, concrete draws evaluate to 0. -/
theorem zero_hash_constant_stream_witness :
    rngDraw (seedStateOf "") 0 = 0 ∧ rngDraw (seedStateOf "") 7 = 0 :=
  ⟨zero_hash_constant_stream.2 "" zero_hash_constant_stream.1 0,
   zero_hash_constant_stream.2 "" zero_hash_constant_stream.1 7⟩

/-! ## Abstracted JS `Math` transcendentals

The engine's only irrational primitives.  `pow24 x` abstracts
`Math.pow(x, 2.4)`, `powInv24 x` abstracts `Math.pow(x, 1/2.4)`,
`cosDeg h` abstracts `Math.cos(h * Math.PI / 180)`, `sinDeg` likewise, and
`atan2Deg b a` abstracts `Math.atan2(b, a) * (180 / Math.PI)`. -/

structure FloatOps where
  pow24 : ℚ → ℚ
  powInv24 : ℚ → ℚ
  cbrt : ℚ → ℚ
  sqrt : ℚ → ℚ
  cosDeg : ℚ → ℚ
  sinDeg : ℚ → ℚ
  atan2Deg : ℚ → ℚ → ℚ

/-- A concrete `FloatOps` used by witnesses (`pow24` as the identity keeps
the gamma curve monotone through 0 and 1). -/
def witOps : FloatOps where
  pow24 := fun v => v
  powInv24 := fun _ => 0
  cbrt := fun _ => 0
  sqrt := fun _ => 0
  cosDeg := fun _ => 0
  sinDeg := fun _ => 0
  atan2Deg := fun _ _ => 0

/-! ## Color value types (`perceptualColor.ts`) -/

structure OKLAB where
  L : ℚ
  a : ℚ
  b : ℚ
deriving DecidableEq

structure OKLCH where
  L : ℚ
  C : ℚ
  h : ℚ
deriving DecidableEq

structure RGB where
  r : ℤ
  g : ℤ
  b : ℤ
deriving DecidableEq

/-- sRGB gamma decoding (`linearizeRGB`). -/
def linearizeRGB (ops : FloatOps) (v : ℚ) : ℚ :=
  if v ≤ 0.04045 then v / 12.92 else ops.pow24 ((v + 0.055) / 1.055)

/-- sRGB gamma encoding (`delinearizeRGB`). -/
def delinearizeRGB (ops : FloatOps) (v : ℚ) : ℚ :=
  if v ≤ 0.0031308 then 12.92 * v else 1.055 * ops.powInv24 v - 0.055

/-- `rgbToOKLAB`: gamma-decode, sRGB→LMS matrix, cube root, LMS′→OKLab. -/
def rgbToOKLAB (ops : FloatOps) (r g b : ℚ) : OKLAB :=
  let r_lin := linearizeRGB ops (r / 255)
  let g_lin := linearizeRGB ops (g / 255)
  let b_lin := linearizeRGB ops (b / 255)
  let l := 0.4122214708 * r_lin + 0.5363325363 * g_lin + 0.0514459929 * b_lin
  let m := 0.2119034982 * r_lin + 0.6806995451 * g_lin + 0.1073969566 * b_lin
  let s := 0.0883024619 * r_lin + 0.2817188376 * g_lin + 0.6299787005 * b_lin
  let l_ := ops.cbrt l
  let m_ := ops.cbrt m
  let s_ := ops.cbrt s
  { L := 0.2104542553 * l_ + 0.7936177850 * m_ - 0.0040720468 * s_
    a := 1.9779984951 * l_ - 2.4285922050 * m_ + 0.4505937099 * s_
    b := 0.0259040371 * l_ + 0.7827717662 * m_ - 0.8086757660 * s_ }

/-- `oklabToRGB`: OKLab→LMS′, cube, LMS→linear RGB, clamp, gamma-encode,
round each channel. -/
def oklabToRGB (ops : FloatOps) (L a b : ℚ) : RGB :=
  let l_ := L + 0.3963377774 * a + 0.2158037573 * b
  let m_ := L - 0.1055613458 * a - 0.0638541728 * b
  let s_ := L - 0.0894841775 * a - 1.2914855480 * b
  let l := l_ * l_ * l_
  let m := m_ * m_ * m_
  let s := s_ * s_ * s_
  let r_lin := 4.0767416621 * l - 3.3077115913 * m + 0.2309699292 * s
  let g_lin := -1.2684380046 * l + 2.6097574011 * m - 0.3413193965 * s
  let b_lin := -0.0041960863 * l - 0.7034186147 * m + 1.7076147010 * s
  { r := jsRound (255 * delinearizeRGB ops (max 0 (min 1 r_lin)))
    g := jsRound (255 * delinearizeRGB ops (max 0 (min 1 g_lin)))
    b := jsRound (255 * delinearizeRGB ops (max 0 (min 1 b_lin))) }

/-- `oklabToOKLCH`: polar form, hue normalized to `[0,360)`. -/
def oklabToOKLCH (ops : FloatOps) (L a b : ℚ) : OKLCH :=
  let C := ops.sqrt (a * a + b * b)
  let h := ops.atan2Deg b a
  { L := L, C := C, h := if h < 0 then h + 360 else h }

/-- `oklchToOKLAB`. -/
def oklchToOKLAB (ops : FloatOps) (L C h : ℚ) : OKLAB :=
  { L := L, a := C * ops.cosDeg h, b := C * ops.sinDeg h }

/-! ## Hex formatting (`toString(16).padStart(2, '0')`) -/

/-- JS `Number.prototype.toString(16)` for integers. -/
def jsHexString (n : ℤ) : String :=
  if n < 0 then "-" ++ (Nat.toDigits 16 n.natAbs).asString
  else (Nat.toDigits 16 n.toNat).asString

/-- `padStart(2, '0')`. -/
def padStart2 (s : String) : String :=
  if s.length < 2 then "0" ++ s else s

/-- One color channel as two lowercase hex digits. -/
def hexByte (n : ℤ) : String := padStart2 (jsHexString n)

/-- `oklchToHex`. -/
def oklchToHex (ops : FloatOps) (L C h : ℚ) : String :=
  let oklab := oklchToOKLAB ops L C h
  let rgb := oklabToRGB ops oklab.L oklab.a oklab.b
  "#" ++ hexByte rgb.r ++ hexByte rgb.g ++ hexByte rgb.b

/-- Modelled from the spec: `oklabToHex` is imported from `perceptualColor`
by the optimizer, but its definition is not among the sources.  Per §4.1/§4.6
it is the hex encoding of `oklabToRGB`, exactly as `oklchToHex` encodes its
converted channels. -/
def oklabToHex (ops : FloatOps) (L a b : ℚ) : String :=
  let rgb := oklabToRGB ops L a b
  "#" ++ hexByte rgb.r ++ hexByte rgb.g ++ hexByte rgb.b

/-! ## Theme enumerations (`types/theme.ts`) -/

inductive SchemeStyle where
  | monochrome | complementary | triadic | analogous
  | splitComplementary | tetradic | spectral
deriving DecidableEq, Fintype

def styleStr : SchemeStyle → String
  | .monochrome => "monochrome"
  | .complementary => "complementary"
  | .triadic => "triadic"
  | .analogous => "analogous"
  | .splitComplementary => "split-complementary"
  | .tetradic => "tetradic"
  | .spectral => "spectral"

inductive OledRiskLevel where
  | ultraConservative | conservative | balanced | aggressive
deriving DecidableEq, Fintype

def riskStr : OledRiskLevel → String
  | .ultraConservative => "ultra-conservative"
  | .conservative => "conservative"
  | .balanced => "balanced"
  | .aggressive => "aggressive"

/-- Position in the tier order ultra-conservative → aggressive. -/
def tierIdx : OledRiskLevel → ℕ
  | .ultraConservative => 0
  | .conservative => 1
  | .balanced => 2
  | .aggressive => 3

/-! ## Advanced harmony model (`advancedColorGenerator.ts`) -/

structure HarmonyConfig where
  hueOffset : ℚ
  chromaMultiplier : ℚ
  lightnessOffset : ℚ
  harmonyStrength : ℚ
  psychologicalWeight : ℚ
deriving DecidableEq, Inhabited

def ADVANCED_HARMONIES : SchemeStyle → List HarmonyConfig
  | .monochrome =>
    [⟨0, 1.0, 0, 1.0, 1.0⟩, ⟨0, 0.7, 15, 0.9, 0.8⟩, ⟨0, 0.5, -10, 0.8, 0.6⟩,
     ⟨0, 0.3, 20, 0.7, 0.4⟩, ⟨0, 0.2, -15, 0.6, 0.3⟩, ⟨0, 0.1, 25, 0.5, 0.2⟩]
  | .complementary =>
    [⟨0, 1.0, 0, 1.0, 1.0⟩, ⟨180, 0.9, 5, 0.9, 0.9⟩, ⟨0, 0.6, -10, 0.8, 0.7⟩,
     ⟨180, 0.7, 15, 0.7, 0.6⟩, ⟨30, 0.4, 10, 0.6, 0.5⟩, ⟨210, 0.5, 20, 0.5, 0.4⟩]
  | .triadic =>
    [⟨0, 1.0, 0, 1.0, 1.0⟩, ⟨120, 0.85, 5, 0.85, 0.8⟩, ⟨240, 0.85, 5, 0.85, 0.8⟩,
     ⟨60, 0.6, -10, 0.7, 0.6⟩, ⟨180, 0.6, 10, 0.6, 0.5⟩, ⟨300, 0.6, 15, 0.6, 0.5⟩]
  | .analogous =>
    [⟨0, 1.0, 0, 1.0, 1.0⟩, ⟨30, 0.95, 3, 0.9, 0.8⟩, ⟨-30, 0.9, 5, 0.85, 0.7⟩,
     ⟨60, 0.7, -5, 0.7, 0.5⟩, ⟨-60, 0.7, 8, 0.6, 0.4⟩, ⟨15, 0.5, 12, 0.5, 0.3⟩]
  | .splitComplementary =>
    [⟨0, 1.0, 0, 1.0, 1.0⟩, ⟨150, 0.85, 5, 0.85, 0.8⟩, ⟨210, 0.85, 5, 0.85, 0.8⟩,
     ⟨30, 0.6, -8, 0.7, 0.6⟩, ⟨180, 0.7, 12, 0.6, 0.5⟩, ⟨240, 0.6, 15, 0.5, 0.4⟩]
  | .tetradic =>
    [⟨0, 1.0, 0, 1.0, 1.0⟩, ⟨90, 0.9, 3, 0.85, 0.8⟩, ⟨180, 0.85, 6, 0.75, 0.7⟩,
     ⟨270, 0.9, 3, 0.8, 0.7⟩, ⟨45, 0.6, -5, 0.6, 0.5⟩, ⟨135, 0.6, 10, 0.5, 0.4⟩]
  | .spectral =>
    [⟨0, 1.0, 0, 1.0, 1.0⟩, ⟨60, 0.9, 2, 0.9, 0.9⟩, ⟨120, 0.95, 4, 0.95, 0.9⟩,
     ⟨180, 0.9, 6, 0.85, 0.85⟩, ⟨240, 0.95, 8, 0.9, 0.8⟩, ⟨300, 0.85, 10, 0.8, 0.7⟩]

/-- One pre-jitter palette slot of `generatePerceptualColorPalette`:
`hue = (baseHue + harmonyStrength * hueOffset) % 360` (JS remainder),
chroma and lightness clamped into their working ranges. -/
def basePaletteSlot (baseHue : ℚ) (cfg : HarmonyConfig) : OKLCH :=
  let hue := jsRem (baseHue + cfg.harmonyStrength * cfg.hueOffset) 360
  let baseChroma := 0.12 * cfg.chromaMultiplier
  let baseLightness := 0.5 + cfg.lightnessOffset / 100
  { L := max 0.05 (min 0.95 baseLightness)
    C := max 0.01 (min 0.25 baseChroma)
    h := hue }

/-- The pre-jitter base palette (the `basePalette` map in
`generatePerceptualColorPalette`). -/
def basePalette (baseHue : ℚ) (style : SchemeStyle) : List OKLCH :=
  (ADVANCED_HARMONIES style).map (basePaletteSlot baseHue)

lemma jsRem_eq_fract (a : ℚ) : jsRem a 360 =
    if 0 ≤ a then 360 * Int.fract (a / 360) else -(360 * Int.fract (-a / 360)) := by
  unfold jsRem
  split_ifs <;> rw [Int.fract] <;> ring

lemma jsRem_bounds_nonneg {a : ℚ} (ha : 0 ≤ a) :
    0 ≤ jsRem a 360 ∧ jsRem a 360 < 360 := by
  rw [jsRem_eq_fract, if_pos ha]
  have h1 := Int.fract_lt_one (a / 360)
  have h2 := Int.fract_nonneg (a / 360)
  constructor <;> nlinarith

lemma jsRem_bounds_neg {a : ℚ} (ha : a < 0) :
    -360 < jsRem a 360 ∧ jsRem a 360 ≤ 0 := by
  rw [jsRem_eq_fract, if_neg (not_le.mpr ha)]
  have h1 := Int.fract_lt_one (-a / 360)
  have h2 := Int.fract_nonneg (-a / 360)
  constructor <;> nlinarith

/-! ## OLED risk tables -/

/-- Per-role lightness caps of the synthesizer's table (`OLED_CONSTRAINTS`). -/
structure MaxLightnessRoles where
  foreground : ℚ
  accent : ℚ
  brightAccent : ℚ
  background : ℚ
deriving DecidableEq

/-- One tier of the synthesizer's `OLED_CONSTRAINTS` table. -/
structure OLEDConstraints where
  maxLightness : MaxLightnessRoles
  minContrast : ℚ
  chromaBoost : ℚ
deriving DecidableEq

/-- `OLED_CONSTRAINTS` (`advancedColorGenerator.ts`). -/
def OLED_CONSTRAINTS : OledRiskLevel → OLEDConstraints
  | .ultraConservative => ⟨⟨0.25, 0.20, 0.30, 0.0⟩, 5.0, 1.4⟩
  | .conservative => ⟨⟨0.35, 0.32, 0.40, 0.0⟩, 4.5, 1.15⟩
  | .balanced => ⟨⟨0.47, 0.45, 0.55, 0.0⟩, 4.0, 1.08⟩
  | .aggressive => ⟨⟨0.60, 0.58, 0.70, 0.0⟩, 3.5, 1.02⟩

/-- One tier of the optimizer's `OLED_THRESHOLDS` table
(`paletteOptimizer.ts`). -/
structure OLEDThresholds where
  maxForegroundL : ℚ
  maxAccentL : ℚ
  maxBrightAccentL : ℚ
  maxDarkColorsL : ℚ
  maxBrightColorsL : ℚ
  maxChroma : ℚ
  minContrastRatio : ℚ
deriving DecidableEq

/-- `OLED_THRESHOLDS` (`paletteOptimizer.ts`). -/
def OLED_THRESHOLDS : OledRiskLevel → OLEDThresholds
  | .ultraConservative => ⟨0.35, 0.25, 0.35, 0.15, 0.25, 0.12, 5.0⟩
  | .conservative => ⟨0.45, 0.35, 0.45, 0.20, 0.35, 0.18, 4.5⟩
  | .balanced => ⟨0.55, 0.45, 0.55, 0.25, 0.45, 0.22, 4.0⟩
  | .aggressive => ⟨0.65, 0.55, 0.70, 0.30, 0.55, 0.30, 3.5⟩

/-- Counterexample to claim C5 as stated: in both tier tables the
minimum-contrast field and the chroma-compensation factor strictly
*decrease* from ultra-conservative to conservative, so not every numeric
field is monotonically non-decreasing along the tier order. -/
theorem risk_tables_not_all_monotone :
    (OLED_THRESHOLDS .ultraConservative).minContrastRatio >
      (OLED_THRESHOLDS .conservative).minContrastRatio ∧
    (OLED_CONSTRAINTS .ultraConservative).minContrast >
      (OLED_CONSTRAINTS .conservative).minContrast ∧
    (OLED_CONSTRAINTS .ultraConservative).chromaBoost >
      (OLED_CONSTRAINTS .conservative).chromaBoost := by
  refine ⟨?_, ?_, ?_⟩ <;> norm_num [OLED_THRESHOLDS, OLED_CONSTRAINTS]

/-- Claim C5, amended: along the tier order ultra-conservative →
conservative → balanced → aggressive, every per-role `maxLightness` cap and
every max-chroma cap of both tables is monotonically non-decreasing, while
the minimum-contrast field and the chroma-compensation factor of both
tables are monotonically non-increasing. -/
theorem risk_tables_monotonicity :
    ∀ t₁ t₂ : OledRiskLevel, tierIdx t₁ ≤ tierIdx t₂ →
      ((OLED_THRESHOLDS t₁).maxForegroundL ≤ (OLED_THRESHOLDS t₂).maxForegroundL ∧
       (OLED_THRESHOLDS t₁).maxAccentL ≤ (OLED_THRESHOLDS t₂).maxAccentL ∧
       (OLED_THRESHOLDS t₁).maxBrightAccentL ≤ (OLED_THRESHOLDS t₂).maxBrightAccentL ∧
       (OLED_THRESHOLDS t₁).maxDarkColorsL ≤ (OLED_THRESHOLDS t₂).maxDarkColorsL ∧
       (OLED_THRESHOLDS t₁).maxBrightColorsL ≤ (OLED_THRESHOLDS t₂).maxBrightColorsL ∧
       (OLED_THRESHOLDS t₁).maxChroma ≤ (OLED_THRESHOLDS t₂).maxChroma) ∧
      ((OLED_CONSTRAINTS t₁).maxLightness.foreground ≤ (OLED_CONSTRAINTS t₂).maxLightness.foreground ∧
       (OLED_CONSTRAINTS t₁).maxLightness.accent ≤ (OLED_CONSTRAINTS t₂).maxLightness.accent ∧
       (OLED_CONSTRAINTS t₁).maxLightness.brightAccent ≤ (OLED_CONSTRAINTS t₂).maxLightness.brightAccent ∧
       (OLED_CONSTRAINTS t₁).maxLightness.background ≤ (OLED_CONSTRAINTS t₂).maxLightness.background) ∧
      ((OLED_THRESHOLDS t₂).minContrastRatio ≤ (OLED_THRESHOLDS t₁).minContrastRatio ∧
       (OLED_CONSTRAINTS t₂).minContrast ≤ (OLED_CONSTRAINTS t₁).minContrast ∧
       (OLED_CONSTRAINTS t₂).chromaBoost ≤ (OLED_CONSTRAINTS t₁).chromaBoost) := by
  intro t₁ t₂ h
  cases t₁ <;> cases t₂ <;>
    first
      | exact absurd h (by decide)
      | norm_num [OLED_THRESHOLDS, OLED_CONSTRAINTS]

/-- Witness for the amended C5 at a concrete tier pair. -/
theorem risk_tables_monotonicity_witness :
    tierIdx .ultraConservative ≤ tierIdx .aggressive ∧
    (OLED_THRESHOLDS .ultraConservative).maxForegroundL ≤
      (OLED_THRESHOLDS .aggressive).maxForegroundL :=
  ⟨by decide,
   (risk_tables_monotonicity .ultraConservative .aggressive (by decide)).1.1⟩

/-! ## OLED optimization of a single color (`optimizeForOLED`) -/

inductive Role where
  | foreground | accent | brightAccent | background
deriving DecidableEq

inductive DisplayType where
  | phone | monitor | tv
deriving DecidableEq

structure OLEDOptimizationConfig where
  powerSavingWeight : ℚ
  visualQualityWeight : ℚ
  displayType : DisplayType
  riskLevel : OledRiskLevel

def roleCap (m : MaxLightnessRoles) : Role → ℚ
  | .foreground => m.foreground
  | .accent => m.accent
  | .brightAccent => m.brightAccent
  | .background => m.background

/-- `optimizeForOLED` (`advancedColorGenerator.ts`). -/
def optimizeForOLED (color : OKLCH) (role : Role) (config : OLEDOptimizationConfig) : OKLCH :=
  let constraints := OLED_CONSTRAINTS config.riskLevel
  match role with
  | .background => { L := 0, C := 0, h := color.h }
  | r =>
      let maxLightness := roleCap constraints.maxLightness r
      let targetLightness :=
        min color.L (maxLightness * (config.powerSavingWeight + config.visualQualityWeight * 0.3))
      let chromaAdjustment := constraints.chromaBoost * (1 + (color.L - targetLightness) * 0.5)
      let targetChroma := min (color.C * chromaAdjustment) 0.18
      { L := targetLightness, C := targetChroma, h := color.h }

/-- Role assigned to palette index `i` in `generatePerceptualColorPalette`. -/
def roleForIndex (i : ℕ) : Role :=
  if i = 0 then .foreground
  else if i = 1 then .accent
  else if i = 2 then .brightAccent
  else if 6 ≤ i then .background
  else .accent

/-! ## Seeded jitter and the full perceptual palette -/

/-- One slot of the jitter map: three sequential draws perturb L, C, h. -/
def jitterSlot (cfg : HarmonyConfig) (c : OKLCH) (st : ℤ) : OKLCH × ℤ :=
  let st1 := rngNext st
  let r1 := rngValue st1
  let st2 := rngNext st1
  let r2 := rngValue st2
  let st3 := rngNext st2
  let r3 := rngValue st3
  let variationAmount := 0.02 * (1 - cfg.harmonyStrength)
  ({ L := max 0.01 (min 0.99 (c.L + (r1 - 0.5) * variationAmount))
     C := max 0.005 (min 0.2 (c.C + (r2 - 0.5) * variationAmount * 0.5))
     h := jsRem (c.h + (r3 - 0.5) * variationAmount * 30) 360 }, st3)

def jitterPalette : List HarmonyConfig → List OKLCH → ℤ → List OKLCH
  | cfg :: cfgs, c :: cs, st =>
      let p := jitterSlot cfg c st
      p.1 :: jitterPalette cfgs cs p.2
  | _, _, _ => []

structure ColorGenerationOptions where
  baseHue : ℚ
  style : SchemeStyle
  seed : String
  riskLevel : OledRiskLevel
  displayType : DisplayType
  powerSavingWeight : ℚ
  visualQualityWeight : ℚ

/-- `generatePerceptualColorPalette`: base palette from harmony rules,
per-role OLED optimization, then seeded jitter. -/
def generatePerceptualColorPalette (opts : ColorGenerationOptions) : List OKLCH :=
  let harmonyConfigs := ADVANCED_HARMONIES opts.style
  let base := harmonyConfigs.map (basePaletteSlot opts.baseHue)
  let oledConfig : OLEDOptimizationConfig :=
    ⟨opts.powerSavingWeight, opts.visualQualityWeight, opts.displayType, opts.riskLevel⟩
  let optimized := base.enum.map (fun p => optimizeForOLED p.2 (roleForIndex p.1) oledConfig)
  jitterPalette harmonyConfigs optimized (seedStateOf opts.seed)

/-! ## Legacy HSL hex encoder (`hslToHex`) -/

/-- `hslToHex`, shared by both engine files. -/
def hslToHex (h s l : ℚ) : String :=
  let hn := jsRem (jsRem h 360 + 360) 360
  let sn := s / 100
  let ln := l / 100
  let a := sn * min ln (1 - ln)
  let f := fun (n : ℚ) =>
    let k := jsRem (n + hn / 30) 12
    let color := ln - a * max (min (min (k - 3) (9 - k)) 1) (-1)
    hexByte (jsRound (255 * color))
  "#" ++ f 0 ++ f 8 ++ f 4

inductive FallbackKind where
  | dark | bright
deriving DecidableEq

/-- `generateFallbackColor`. -/
def generateFallbackColor (index : ℕ) (ty : FallbackKind) (_style : SchemeStyle) : String :=
  let baseHue : ℚ := ((index * 45) % 360 : ℕ)
  let lightness : ℚ := match ty with
    | .dark => 15 + index * 2
    | .bright => 35 + index * 3
  let saturation : ℚ := 60 + index * 5
  hslToHex baseHue (min 85 saturation)
    (min (match ty with | .dark => (40 : ℚ) | .bright => 70) lightness)

/-! ## Role assignment (`assignRolesToColors`) -/

/-- Stable insertion: `x` goes after every element `y` with `le y x`,
modelling the stability of JS `Array.prototype.sort` with an
ascending comparator. -/
def insertLe {α : Type} (le : α → α → Bool) (x : α) : List α → List α
  | [] => [x]
  | y :: ys => if le y x then y :: insertLe le x ys else x :: y :: ys

/-- Stable ascending sort. -/
def stableSort {α : Type} (le : α → α → Bool) (l : List α) : List α :=
  l.foldl (fun acc x => insertLe le x acc) []

structure AssignedColors where
  background : String
  foreground : String
  accent : String
  accent_bright : String
  selection_bg : String
  selection_fg : String
  darkColors : List String
  brightColors : List String

/-- `assignRolesToColors` (`predefinedPalettes.ts`, perceptual edition). -/
def assignRolesToColors (hexColors : List String) (palette : List OKLCH)
    (style : SchemeStyle) : AssignedColors :=
  let idx := List.range palette.length
  let sorted := stableSort
    (fun a b => decide ((palette.getD a ⟨0, 0, 0⟩).L ≤ (palette.getD b ⟨0, 0, 0⟩).L)) idx
  let s1 := sorted.getD 1 0
  let s2 := sorted.getD 2 0
  let s3 := sorted.getD 3 0
  let s4 := sorted.getD 4 0
  let s5 := sorted.getD 5 0
  let background := "#000000"
  let foreground := hexColors.getD s2 ""
  let accent := hexColors.getD s4 ""
  let accent_bright := hexColors.getD s5 ""
  let selection_bg := hexColors.getD s1 ""
  let selection_fg := hexColors.getD s3 ""
  let remaining := sorted.filter
    (fun i => !(i == s2) && !(i == s4) && !(i == s5) && !(i == s1) && !(i == s3))
  let darkTaken := (remaining.take 8).map (fun i => hexColors.getD i "")
  let brightTaken := ((remaining.drop 8).take 8).map (fun i => hexColors.getD i "")
  let darkColors := darkTaken ++
    (List.range (8 - darkTaken.length)).map
      (fun k => generateFallbackColor (darkTaken.length + k) .dark style)
  let brightColors := brightTaken ++
    (List.range (8 - brightTaken.length)).map
      (fun k => generateFallbackColor (brightTaken.length + k) .bright style)
  { background := background
    foreground := foreground
    accent := accent
    accent_bright := accent_bright
    selection_bg := selection_bg
    selection_fg := selection_fg
    darkColors := darkColors
    brightColors := brightColors }

/-! ## The synthesized artifact (`ColorScheme`) -/

structure CoreColors where
  background : String
  foreground : String
  accent : String
  accent_bright : String
  cursor : String
  selection_bg : String
  selection_fg : String
deriving DecidableEq

structure TerminalColors where
  color0 : String
  color1 : String
  color2 : String
  color3 : String
  color4 : String
  color5 : String
  color6 : String
  color7 : String
  color8 : String
  color9 : String
  color10 : String
  color11 : String
  color12 : String
  color13 : String
  color14 : String
  color15 : String
deriving DecidableEq

structure ColorScheme where
  name : String
  description : String
  seed : String
  style : SchemeStyle
  hue : ℚ
  createdAt : String
  core : CoreColors
  terminal : TerminalColors
deriving DecidableEq

def schemeDescriptors : List String :=
  ["Whispers of the void", "Signal from deep space", "Midnight resonance",
   "Spectral silence", "Zero-point luminescence", "Event horizon shimmer",
   "Quantum twilight", "Photon decay", "Dark matter pulse"]

/-- `generateColorScheme` (advanced perceptual edition,
`predefinedPalettes.ts`).  `now` is the string observed from
`new Date().toISOString()`. -/
def generateColorScheme (ops : FloatOps) (baseHue : ℚ) (style : SchemeStyle)
    (seed name : String) (oledRiskLevel : OledRiskLevel) (now : String) : ColorScheme :=
  let palette := generatePerceptualColorPalette
    ⟨baseHue, style, seed, oledRiskLevel, .monitor, 0.7, 0.3⟩
  let hexColors := palette.map (fun c => oklchToHex ops c.L c.C c.h)
  let colors := assignRolesToColors hexColors palette style
  let r := rngDraw (seedStateOf (seed ++ name ++ styleStr style)) 0
  let description := schemeDescriptors.getD (⌊r * (schemeDescriptors.length : ℚ)⌋).toNat ""
  { name := name
    description := description
    seed := seed
    style := style
    hue := baseHue
    createdAt := now
    core :=
      { background := colors.background
        foreground := colors.foreground
        accent := colors.accent
        accent_bright := colors.accent_bright
        cursor := colors.accent_bright
        selection_bg := colors.selection_bg
        selection_fg := colors.selection_fg }
    terminal :=
      { color0 := colors.darkColors.getD 0 ""
        color1 := colors.darkColors.getD 1 ""
        color2 := colors.darkColors.getD 2 ""
        color3 := colors.darkColors.getD 3 ""
        color4 := colors.darkColors.getD 4 ""
        color5 := colors.darkColors.getD 5 ""
        color6 := colors.darkColors.getD 6 ""
        color7 := colors.darkColors.getD 7 ""
        color8 := colors.brightColors.getD 0 ""
        color9 := colors.brightColors.getD 1 ""
        color10 := colors.brightColors.getD 2 ""
        color11 := colors.brightColors.getD 3 ""
        color12 := colors.brightColors.getD 4 ""
        color13 := colors.brightColors.getD 5 ""
        color14 := colors.brightColors.getD 6 ""
        color15 := colors.brightColors.getD 7 "" } }

/-! ## Predefined palettes (`predefinedPalettes.ts`) -/

structure ColorPalette where
  name : String
  description : String
  baseHue : ℚ
  primary : String
  secondary : String
  accent : String
  surface : String
  background : String
  foreground : String
  dim : String
  error : String
  warning : String
  success : String
  info : String
  layer : String
  harmony : SchemeStyle
  contrast : String
  mood : String
deriving DecidableEq

def nordPalette : ColorPalette :=
  { name := "Nord", description := "An arctic, north-bluish color palette", baseHue := 220
    primary := "#5E81AC", secondary := "#81A1C1", accent := "#88C0D0"
    surface := "#2E3440", background := "#3B4252", foreground := "#D8DEE9"
    dim := "#4C566A", error := "#BF616A", warning := "#D08770"
    success := "#A3BE8C", info := "#81A1C1", layer := "#434C5E"
    harmony := .analogous, contrast := "medium", mood := "calm" }

def tokyoNightPalette : ColorPalette :=
  { name := "Tokyo Night", description := "A dark theme inspired by Tokyo at night", baseHue := 240
    primary := "#7AA2F7", secondary := "#9ABDF5", accent := "#7DCFFF"
    surface := "#1A1B26", background := "#16161E", foreground := "#C0CAF5"
    dim := "#565F89", error := "#F7768E", warning := "#FF9E64"
    success := "#9ECE6A", info := "#7AA2F7", layer := "#292E42"
    harmony := .analogous, contrast := "high", mood := "modern" }

def gruvboxPalette : ColorPalette :=
  { name := "Gruvbox", description := "Retro groove color scheme", baseHue := 40
    primary := "#83A598", secondary := "#8EC07C", accent := "#FABD2F"
    surface := "#282828", background := "#3C3836", foreground := "#EBDBB2"
    dim := "#665C54", error := "#FB4934", warning := "#FE8019"
    success := "#B8BB26", info := "#83A598", layer := "#504945"
    harmony := .analogous, contrast := "medium", mood := "retro" }

def catppuccinPalette : ColorPalette :=
  { name := "Catppuccin", description := "Soothing pastel theme for the high-spirited", baseHue := 320
    primary := "#F5C2E7", secondary := "#FAB387", accent := "#F9E2AF"
    surface := "#1E1E2E", background := "#181825", foreground := "#CDD6F4"
    dim := "#6C7086", error := "#F38BA8", warning := "#FAB387"
    success := "#A6E3A1", info := "#74C7EC", layer := "#313244"
    harmony := .analogous, contrast := "medium", mood := "soft" }

def monokaiPalette : ColorPalette :=
  { name := "Monokai", description := "Professional color scheme", baseHue := 280
    primary := "#AE81FF", secondary := "#66D9EF", accent := "#FD971F"
    surface := "#272822", background := "#1E1F1C", foreground := "#F8F8F2"
    dim := "#75715E", error := "#F92672", warning := "#FD971F"
    success := "#A6E22A", info := "#66D9EF", layer := "#49483E"
    harmony := .complementary, contrast := "high", mood := "professional" }

def draculaPalette : ColorPalette :=
  { name := "Dracula", description := "Dark theme for a great cause", baseHue := 290
    primary := "#BD93F9", secondary := "#8BE9FD", accent := "#FFB86C"
    surface := "#282A36", background := "#1E1F29", foreground := "#F8F8F2"
    dim := "#6272A4", error := "#FF5555", warning := "#FFB86C"
    success := "#50FA7B", info := "#8BE9FD", layer := "#44475A"
    harmony := .complementary, contrast := "high", mood := "vibrant" }

/-- Result of the JS property access `PREDEFINED_PALETTES[id]` on a plain
object literal: an own key yields its palette, a key of `Object.prototype`
yields the inherited (truthy, non-palette) value through the prototype
chain, and any other key yields `undefined`. -/
inductive JsLookup where
  | own (p : ColorPalette)
  | inherited
  | missing
deriving DecidableEq

/-- The property names of `Object.prototype`, reachable through the
prototype chain of every object literal. -/
def objectPrototypeKeys : List String :=
  ["constructor", "toString", "toLocaleString", "valueOf", "hasOwnProperty",
   "isPrototypeOf", "propertyIsEnumerable", "__proto__", "__defineGetter__",
   "__defineSetter__", "__lookupGetter__", "__lookupSetter__"]

/-- `getPaletteById`: the property access `PREDEFINED_PALETTES[id]`.  Own
keys shadow the prototype; keys of `Object.prototype` produce a truthy
inherited value rather than `undefined`. -/
def getPaletteById (id : String) : JsLookup :=
  if id = "nord" then .own nordPalette
  else if id = "tokyo_night" then .own tokyoNightPalette
  else if id = "gruvbox" then .own gruvboxPalette
  else if id = "catppuccin" then .own catppuccinPalette
  else if id = "monokai" then .own monokaiPalette
  else if id = "dracula" then .own draculaPalette
  else if id ∈ objectPrototypeKeys then .inherited
  else .missing

/-- The registry's key set, as listed by
`PaletteOptimizer.getAvailablePaletteIds`. -/
def registeredPaletteIds : List String :=
  ["nord", "tokyo_night", "gruvbox", "catppuccin", "monokai", "dracula"]

/-! ## Hex parsing -/

def hexDigitVal (c : Char) : Option ℕ :=
  if '0' ≤ c ∧ c ≤ '9' then some (c.toNat - '0'.toNat)
  else if 'a' ≤ c ∧ c ≤ 'f' then some (c.toNat - 'a'.toNat + 10)
  else if 'A' ≤ c ∧ c ≤ 'F' then some (c.toNat - 'A'.toNat + 10)
  else none

/-- Modelled from the spec: `hexToOKLAB` is imported from `perceptualColor`
by the optimizer, but its definition is not among the sources.  Per §4.6 the
optimizer converts each `#RRGGBB` source color to OKLab, and a malformed hex
raises, which the caller recovers from with a neutral fallback; parse
failure is signalled here with `none`. -/
def hexToOKLAB (ops : FloatOps) (hex : String) : Option OKLAB :=
  match hex.data with
  | ['#', a, b, c, d, e, f] =>
      match hexDigitVal a, hexDigitVal b, hexDigitVal c,
            hexDigitVal d, hexDigitVal e, hexDigitVal f with
      | some va, some vb, some vc, some vd, some ve, some vf =>
          some (rgbToOKLAB ops (16 * va + vb) (16 * vc + vd) (16 * ve + vf))
      | _, _, _, _, _, _ => none
  | _ => none

/-! ## Palette optimizer (`paletteOptimizer.ts`) -/

structure PaletteOptimizationOptions where
  oledRiskLevel : OledRiskLevel
  preserveSaturation : ℚ
  preserveBrightness : ℚ
  contrastBoost : ℚ

/-- `PaletteOptimizer.DEFAULT_OPTIONS`. -/
def DEFAULT_OPTIONS : PaletteOptimizationOptions :=
  { oledRiskLevel := .balanced, preserveSaturation := 0.8
    preserveBrightness := 0.5, contrastBoost := 0.2 }

/-- The palette's role→OKLab map after `convertPaletteToOKLAB`.  Every
registered palette defines all twelve keys, so the record is total. -/
structure PaletteLab where
  primary : OKLAB
  secondary : OKLAB
  accent : OKLAB
  surface : OKLAB
  background : OKLAB
  foreground : OKLAB
  dim : OKLAB
  error : OKLAB
  warning : OKLAB
  success : OKLAB
  info : OKLAB
  layer : OKLAB

/-- `convertPaletteToOKLAB`: each hex is converted, a failed conversion
falls back to `{L: 0.5, a: 0, b: 0}`. -/
def convertPaletteToOKLAB (ops : FloatOps) (p : ColorPalette) : PaletteLab :=
  let conv := fun hex => (hexToOKLAB ops hex).getD ⟨0.5, 0, 0⟩
  { primary := conv p.primary, secondary := conv p.secondary
    accent := conv p.accent, surface := conv p.surface
    background := conv p.background, foreground := conv p.foreground
    dim := conv p.dim, error := conv p.error, warning := conv p.warning
    success := conv p.success, info := conv p.info, layer := conv p.layer }

/-- `clampColor` inside `applyOLEDOptimizations`. -/
def clampColor (ops : FloatOps) (options : PaletteOptimizationOptions)
    (color : OKLAB) (maxL maxC : ℚ) : OKLAB :=
  let lch := oklabToOKLCH ops color.L color.a color.b
  let newL := min lch.L maxL
  let newC := min (lch.C * options.preserveSaturation) maxC
  { L := newL, a := newC * ops.cosDeg lch.h, b := newC * ops.sinDeg lch.h }

/-- The optimizer's per-role output record. -/
structure OptimizedColors where
  foreground : OKLAB
  accent : OKLAB
  accent_bright : OKLAB
  background : OKLAB
  selection_bg : OKLAB
  error : OKLAB
  warning : OKLAB
  success : OKLAB
  info : OKLAB
  primary : OKLAB
  secondary : OKLAB
  dim : OKLAB
  layer : OKLAB
  surface : OKLAB

/-- `applyOLEDOptimizations`.  The `||` fallback arms of the source are
unreachable here because every registered palette defines all twelve keys
(`colors.fg` never exists). -/
def applyOLEDOptimizations (ops : FloatOps) (colors : PaletteLab)
    (thresholds : OLEDThresholds) (options : PaletteOptimizationOptions) : OptimizedColors :=
  let cl := clampColor ops options
  let foreground := cl colors.foreground thresholds.maxForegroundL thresholds.maxChroma
  let accent := cl colors.accent thresholds.maxAccentL (thresholds.maxChroma * 1.2)
  let brightAccentSource := colors.accent
  let accent_bright := cl
    { L := brightAccentSource.L * 1.15, a := brightAccentSource.a, b := brightAccentSource.b }
    thresholds.maxBrightAccentL (thresholds.maxChroma * 1.3)
  let background : OKLAB := { L := 0, a := 0, b := 0 }
  let selection_bg : OKLAB :=
    { L := min (accent.L * 0.15) 0.08, a := accent.a * 0.3, b := accent.b * 0.3 }
  { foreground := foreground
    accent := accent
    accent_bright := accent_bright
    background := background
    selection_bg := selection_bg
    error := cl colors.error (thresholds.maxDarkColorsL * 1.5) thresholds.maxChroma
    warning := cl colors.warning (thresholds.maxDarkColorsL * 1.5) thresholds.maxChroma
    success := cl colors.success (thresholds.maxDarkColorsL * 1.5) thresholds.maxChroma
    info := cl colors.info (thresholds.maxDarkColorsL * 1.5) thresholds.maxChroma
    primary := cl colors.primary (thresholds.maxDarkColorsL * 1.5) thresholds.maxChroma
    secondary := cl colors.secondary thresholds.maxDarkColorsL thresholds.maxChroma
    dim := cl colors.dim (thresholds.maxDarkColorsL * 0.8) (thresholds.maxChroma * 0.5)
    layer := cl colors.layer (thresholds.maxDarkColorsL * 0.6) (thresholds.maxChroma * 0.3)
    surface := cl colors.surface (thresholds.maxDarkColorsL * 0.5) 0 }

/-- `clampDark` in `generateTerminalColors`: dark-spectrum lightness cap. -/
def clampDark (thresholds : OLEDThresholds) (c : OKLAB) : OKLAB :=
  { L := min c.L thresholds.maxDarkColorsL, a := c.a, b := c.b }

/-- `clampBright` in `generateTerminalColors`: brighten by 0.08, then cap. -/
def clampBright (thresholds : OLEDThresholds) (c : OKLAB) : OKLAB :=
  { L := min (c.L + 0.08) thresholds.maxBrightColorsL, a := c.a, b := c.b }

/-- `generateTerminalColors`. -/
def generateTerminalColors (ops : FloatOps) (colors : OptimizedColors)
    (thresholds : OLEDThresholds) : TerminalColors :=
  let darkBase := [colors.background, colors.error, colors.success, colors.warning,
                   colors.primary, colors.accent, colors.info, colors.foreground]
  let darkColors := darkBase.map (clampDark thresholds)
  let brightColors := darkBase.map (clampBright thresholds)
  let toHex := fun (c : OKLAB) => oklabToHex ops c.L c.a c.b
  { color0 := toHex (darkColors.getD 0 ⟨0, 0, 0⟩)
    color1 := toHex (darkColors.getD 1 ⟨0, 0, 0⟩)
    color2 := toHex (darkColors.getD 2 ⟨0, 0, 0⟩)
    color3 := toHex (darkColors.getD 3 ⟨0, 0, 0⟩)
    color4 := toHex (darkColors.getD 4 ⟨0, 0, 0⟩)
    color5 := toHex (darkColors.getD 5 ⟨0, 0, 0⟩)
    color6 := toHex (darkColors.getD 6 ⟨0, 0, 0⟩)
    color7 := toHex (darkColors.getD 7 ⟨0, 0, 0⟩)
    color8 := toHex (brightColors.getD 0 ⟨0, 0, 0⟩)
    color9 := toHex (brightColors.getD 1 ⟨0, 0, 0⟩)
    color10 := toHex (brightColors.getD 2 ⟨0, 0, 0⟩)
    color11 := toHex (brightColors.getD 3 ⟨0, 0, 0⟩)
    color12 := toHex (brightColors.getD 4 ⟨0, 0, 0⟩)
    color13 := toHex (brightColors.getD 5 ⟨0, 0, 0⟩)
    color14 := toHex (brightColors.getD 6 ⟨0, 0, 0⟩)
    color15 := toHex (brightColors.getD 7 ⟨0, 0, 0⟩) }

/-- `palette.name.toLowerCase().replace(/\s+/g, '-')` (no registered name
has leading, trailing or doubled whitespace). -/
def slugify (s : String) : String :=
  String.intercalate "-" ((s.toLower.splitOn " ").filter (fun t => t ≠ ""))

/-- The error message thrown for an unknown palette id. -/
def notFoundMsg (id : String) : String :=
  "Palette \"" ++ id ++ "\" not found"

/-- The two failure modes of `optimizePalette`: the deliberate NotFound
`Error` thrown at the `!palette` check, and the `TypeError` raised by
`Object.entries(palette.colors)` when the lookup returned a truthy
inherited value whose `colors` property is `undefined`. -/
inductive JsError where
  | notFound (msg : String)
  | typeError
deriving DecidableEq

/-- `PaletteOptimizer.optimizePalette`.  The caller's partial options are
already merged over `DEFAULT_OPTIONS` into `options`; `now` is the observed
`new Date().toISOString()` string.  A prototype-chain lookup result is
truthy, so it passes the `!palette` check and the call then throws a
TypeError from `Object.entries(undefined)` before any scheme is built. -/
def optimizePalette (ops : FloatOps) (paletteId : String)
    (options : PaletteOptimizationOptions) (now : String) : Except JsError ColorScheme :=
  match getPaletteById paletteId with
  | .missing => .error (.notFound (notFoundMsg paletteId))
  | .inherited => .error .typeError
  | .own palette =>
      let thresholds := OLED_THRESHOLDS options.oledRiskLevel
      let convertedColors := convertPaletteToOKLAB ops palette
      let optimizedColors := applyOLEDOptimizations ops convertedColors thresholds options
      let terminalColors := generateTerminalColors ops optimizedColors thresholds
      .ok
        { name := palette.name ++ " OLED"
          description := palette.description ++ " — " ++ riskStr options.oledRiskLevel
            ++ " OLED optimization"
          seed := slugify palette.name
          style := palette.harmony
          hue := palette.baseHue
          createdAt := now
          core :=
            { background := "#000000"
              foreground := oklabToHex ops optimizedColors.foreground.L
                optimizedColors.foreground.a optimizedColors.foreground.b
              accent := oklabToHex ops optimizedColors.accent.L
                optimizedColors.accent.a optimizedColors.accent.b
              accent_bright := oklabToHex ops optimizedColors.accent_bright.L
                optimizedColors.accent_bright.a optimizedColors.accent_bright.b
              cursor := oklabToHex ops optimizedColors.accent.L
                optimizedColors.accent.a optimizedColors.accent.b
              selection_bg := oklabToHex ops optimizedColors.selection_bg.L
                optimizedColors.selection_bg.a optimizedColors.selection_bg.b
              selection_fg := oklabToHex ops optimizedColors.foreground.L
                optimizedColors.foreground.a optimizedColors.foreground.b }
          terminal := terminalColors }

/-! ## Claims about the synthesizer and optimizer -/

/-- Claim C1: every scheme produced by the engine — by `generateColorScheme`
with any base hue, style, seed, name and risk tier, or by `optimizePalette`
on any palette id with any options — has `core.background = "#000000"`. -/
theorem background_always_black :
    (∀ (ops : FloatOps) (baseHue : ℚ) (style : SchemeStyle) (seed name : String)
        (tier : OledRiskLevel) (now : String),
      (generateColorScheme ops baseHue style seed name tier now).core.background
        = "#000000") ∧
    (∀ (ops : FloatOps) (id : String) (options : PaletteOptimizationOptions) (now : String),
      (optimizePalette ops id options now).map (fun s => s.core.background)
        = (optimizePalette ops id options now).map (fun _ => "#000000")) := by
  constructor
  · intro ops baseHue style seed name tier now
    rfl
  · intro ops id options now
    cases h : getPaletteById id <;> simp [optimizePalette, h, Except.map]

/-- Counterexample to claim C2 as stated: two calls of `generateColorScheme`
with identical arguments but different observed clock readings differ (in
the `createdAt` field), so the result is not byte-identical including
`createdAt`. -/
theorem determinism_counterexample :
    generateColorScheme witOps 180 .monochrome "singularity" "Singularity" .balanced
        "2024-01-01T00:00:00.000Z"
      ≠ generateColorScheme witOps 180 .monochrome "singularity" "Singularity" .balanced
        "2024-01-01T00:00:00.001Z" := by
  intro h
  have h2 : ("2024-01-01T00:00:00.000Z" : String) = "2024-01-01T00:00:00.001Z" :=
    congrArg ColorScheme.createdAt h
  exact absurd h2 (by decide)

/-- A scheme with its `createdAt` field cleared. -/
def eraseCreatedAt (s : ColorScheme) : ColorScheme := { s with createdAt := "" }

/-- Claim C2, amended: two calls of `generateColorScheme` with identical
base hue, style, seed, name and risk tier return values identical in every
field except `createdAt`, which equals the clock reading observed by the
call; the results are byte-identical exactly when the two calls observe the
same `toISOString` value. -/
theorem determinism_modulo_createdAt :
    ∀ (ops : FloatOps) (baseHue : ℚ) (style : SchemeStyle) (seed name : String)
      (tier : OledRiskLevel) (now₁ now₂ : String),
      eraseCreatedAt (generateColorScheme ops baseHue style seed name tier now₁)
        = eraseCreatedAt (generateColorScheme ops baseHue style seed name tier now₂) ∧
      (generateColorScheme ops baseHue style seed name tier now₁).createdAt = now₁ := by
  intro ops baseHue style seed name tier now₁ now₂
  exact ⟨rfl, rfl⟩

/-- Whether an `Except` result is a success. -/
def isOkB (e : Except JsError ColorScheme) : Bool :=
  match e with
  | .ok _ => true
  | .error _ => false

lemma lookup_own_iff (id : String) :
    (∃ p, getPaletteById id = .own p) ↔ id ∈ registeredPaletteIds := by
  unfold getPaletteById registeredPaletteIds
  split_ifs with h1 h2 h3 h4 h5 h6 h7 <;> simp_all

lemma lookup_inherited_iff (id : String) :
    getPaletteById id = .inherited ↔
      (id ∉ registeredPaletteIds ∧ id ∈ objectPrototypeKeys) := by
  unfold getPaletteById registeredPaletteIds
  split_ifs with h1 h2 h3 h4 h5 h6 h7 <;> simp_all

lemma lookup_missing_iff (id : String) :
    getPaletteById id = .missing ↔
      (id ∉ registeredPaletteIds ∧ id ∉ objectPrototypeKeys) := by
  unfold getPaletteById registeredPaletteIds
  split_ifs with h1 h2 h3 h4 h5 h6 h7 <;> simp_all

/-- Counterexample to claim C3 as stated: `"constructor"` is not a
registered palette id, yet `optimizePalette("constructor", …)` does not
fail with the NotFound error — `PREDEFINED_PALETTES["constructor"]` finds
the truthy `Object.prototype.constructor` through the prototype chain,
passes the `!palette` check, and the call throws a TypeError from
`Object.entries(palette.colors)` instead. -/
theorem optimize_notfound_counterexample :
    ("constructor" ∉ registeredPaletteIds) ∧
    optimizePalette witOps "constructor" DEFAULT_OPTIONS "t" = .error .typeError ∧
    optimizePalette witOps "constructor" DEFAULT_OPTIONS "t"
      ≠ .error (.notFound (notFoundMsg "constructor")) := by
  refine ⟨by decide, rfl, ?_⟩
  intro h
  simp [optimizePalette, getPaletteById, objectPrototypeKeys] at h

/-- Claim C3, amended: `optimizePalette` fails with the NotFound error if
and only if the palette id is neither one of the six registered ids nor a
property name of `Object.prototype`; it succeeds with a `ColorScheme` if
and only if the id is registered; and for a prototype-chain id (such as
`"constructor"` or `"toString"`) the inherited lookup value is truthy and
the call fails with a TypeError instead.  In every failure case no
`ColorScheme` (not even a partial one) is produced. -/
theorem optimize_error_taxonomy :
    ∀ (ops : FloatOps) (options : PaletteOptimizationOptions) (now id : String),
      (optimizePalette ops id options now = .error (.notFound (notFoundMsg id)) ↔
        (id ∉ registeredPaletteIds ∧ id ∉ objectPrototypeKeys)) ∧
      (isOkB (optimizePalette ops id options now) = true ↔ id ∈ registeredPaletteIds) ∧
      (id ∉ registeredPaletteIds → id ∈ objectPrototypeKeys →
        optimizePalette ops id options now = .error .typeError) := by
  intro ops options now id
  refine ⟨⟨?_, ?_⟩, ⟨?_, ?_⟩, ?_⟩
  · intro h
    rcases hl : getPaletteById id with p | _ | _
    · simp [optimizePalette, hl] at h
    · simp [optimizePalette, hl] at h
    · exact (lookup_missing_iff id).mp hl
  · intro hmem
    have hu := (lookup_missing_iff id).mpr hmem
    simp [optimizePalette, hu]
  · intro h
    rcases hl : getPaletteById id with p | _ | _
    · exact (lookup_own_iff id).mp ⟨p, hl⟩
    · simp [optimizePalette, hl, isOkB] at h
    · simp [optimizePalette, hl, isOkB] at h
  · intro h
    obtain ⟨p, hp⟩ := (lookup_own_iff id).mpr h
    simp [optimizePalette, hp, isOkB]
  · intro h1 h2
    have hi := (lookup_inherited_iff id).mpr ⟨h1, h2⟩
    simp [optimizePalette, hi]

/-- Witness for the amended C3 at concrete ids: a registered id succeeds,
an unknown id fails with NotFound, a prototype-chain id fails with a
TypeError. -/
theorem optimize_error_taxonomy_witness :
    isOkB (optimizePalette witOps "nord" DEFAULT_OPTIONS "t") = true ∧
    optimizePalette witOps "unknown-id" DEFAULT_OPTIONS "t"
      = .error (.notFound (notFoundMsg "unknown-id")) ∧
    optimizePalette witOps "toString" DEFAULT_OPTIONS "t" = .error .typeError :=
  ⟨(optimize_error_taxonomy witOps DEFAULT_OPTIONS "t" "nord").2.1.mpr (by decide),
   (optimize_error_taxonomy witOps DEFAULT_OPTIONS "t" "unknown-id").1.mpr
     ⟨by decide, by decide⟩,
   (optimize_error_taxonomy witOps DEFAULT_OPTIONS "t" "toString").2.2
     (by decide) (by decide)⟩

/-- The argument of the JS `% 360` in the `i`-th pre-jitter hue:
`baseHue + harmonyStrength * hueOffset`. -/
def slotHueInput (baseHue : ℚ) (style : SchemeStyle) (i : ℕ) : ℚ :=
  baseHue + ((ADVANCED_HARMONIES style).getD i default).harmonyStrength *
    ((ADVANCED_HARMONIES style).getD i default).hueOffset

/-- Counterexample to claim C8 as stated: at base hue 0 with the analogous
style, slot 2 (descriptor offset −30, strength 0.85) has pre-jitter hue
`(0 + 0.85·(−30)) % 360 = −25.5`, which is **not** in `[0,360)` — JS `%`
keeps the sign of its dividend. -/
theorem hue_formula_counterexample :
    ((basePalette 0 .analogous).getD 2 ⟨0, 0, 0⟩).h = -51/2 ∧
    ((basePalette 0 .analogous).getD 2 ⟨0, 0, 0⟩).h < 0 := by
  have key : ((basePalette 0 .analogous).getD 2 ⟨0, 0, 0⟩).h
      = jsRem (0 + (0.85 : ℚ) * (-30)) 360 := rfl
  have hfloor : ⌊((51 : ℚ)/2) / 360⌋ = 0 := by
    rw [Int.floor_eq_zero_iff]
    constructor <;> norm_num
  have heval : jsRem (0 + (0.85 : ℚ) * (-30)) 360 = -51/2 := by
    unfold jsRem
    rw [if_neg (by norm_num)]
    rw [show -((0:ℚ) + 0.85 * (-30)) / 360 = ((51 : ℚ)/2) / 360 by norm_num, hfloor]
    norm_num
  rw [key, heval]
  norm_num

/-- Claim C8, amended: the `i`-th pre-jitter hue equals the JS remainder
`(baseHue + harmonyStrength·hueOffset) % 360`, which lies in `[0,360)` when
the sum is non-negative, but lies in `(-360, 0]` when the sum is negative
(as happens for analogous slots with negative offsets and small base
hues). -/
theorem hue_formula (baseHue : ℚ) (style : SchemeStyle) (i : ℕ)
    (hi : i < (ADVANCED_HARMONIES style).length) :
    ((basePalette baseHue style).getD i ⟨0, 0, 0⟩).h
        = jsRem (slotHueInput baseHue style i) 360 ∧
    (0 ≤ slotHueInput baseHue style i →
      0 ≤ ((basePalette baseHue style).getD i ⟨0, 0, 0⟩).h ∧
      ((basePalette baseHue style).getD i ⟨0, 0, 0⟩).h < 360) ∧
    (slotHueInput baseHue style i < 0 →
      -360 < ((basePalette baseHue style).getD i ⟨0, 0, 0⟩).h ∧
      ((basePalette baseHue style).getD i ⟨0, 0, 0⟩).h ≤ 0) := by
  have key : (basePalette baseHue style).getD i ⟨0, 0, 0⟩
      = basePaletteSlot baseHue ((ADVANCED_HARMONIES style).getD i default) := by
    unfold basePalette
    rw [List.getD_eq_getElem?_getD, List.getElem?_map, List.getElem?_eq_getElem hi,
        List.getD_eq_getElem?_getD, List.getElem?_eq_getElem hi]
    rfl
  rw [key]
  refine ⟨rfl, fun hpos => ?_, fun hneg => ?_⟩
  · exact jsRem_bounds_nonneg hpos
  · exact jsRem_bounds_neg hneg

/-- Witness for the amended C8 at a concrete positive-sum slot. -/
theorem hue_formula_witness :
    ((basePalette 200 .analogous).getD 2 ⟨0, 0, 0⟩).h
        = jsRem (slotHueInput 200 .analogous 2) 360 ∧
    0 ≤ ((basePalette 200 .analogous).getD 2 ⟨0, 0, 0⟩).h :=
  ⟨(hue_formula 200 .analogous 2 (by decide)).1,
   ((hue_formula 200 .analogous 2 (by decide)).2.1 (by
      norm_num [slotHueInput, ADVANCED_HARMONIES, List.getD_cons_succ,
        List.getD_cons_zero])).1⟩

lemma bright_dark_gap (t : OledRiskLevel) :
    (OLED_THRESHOLDS t).maxDarkColorsL + 1/10 ≤ (OLED_THRESHOLDS t).maxBrightColorsL := by
  cases t <;> norm_num [OLED_THRESHOLDS]

/-- Claim C9: for every risk tier and every source color with OKLab
lightness in `[0,1]`, the bright-spectrum slot `min(L + 0.08,
maxBrightColorsL)` is strictly lighter than the matching dark-spectrum slot
`min(L, maxDarkColorsL)`, and in every tier `maxBrightColorsL` exceeds
`maxDarkColorsL` by at least 0.10. -/
theorem bright_spectrum_strictly_lighter :
    ∀ (tier : OledRiskLevel) (c : OKLAB), 0 ≤ c.L → c.L ≤ 1 →
      (clampDark (OLED_THRESHOLDS tier) c).L < (clampBright (OLED_THRESHOLDS tier) c).L ∧
      (OLED_THRESHOLDS tier).maxDarkColorsL + 1/10
        ≤ (OLED_THRESHOLDS tier).maxBrightColorsL := by
  intro tier c h0 h1
  refine ⟨?_, bright_dark_gap tier⟩
  have hgap := bright_dark_gap tier
  show min c.L (OLED_THRESHOLDS tier).maxDarkColorsL
      < min (c.L + 0.08) (OLED_THRESHOLDS tier).maxBrightColorsL
  apply lt_min_iff.mpr
  constructor
  · exact lt_of_le_of_lt (min_le_left _ _) (by linarith)
  · exact lt_of_le_of_lt (min_le_right _ _) (by linarith)

/-- Witness for C9 at a concrete tier and lightness. -/
theorem bright_spectrum_strictly_lighter_witness :
    ((0 : ℚ) ≤ (1/2 : ℚ)) ∧ ((1/2 : ℚ) ≤ 1) ∧
    (clampDark (OLED_THRESHOLDS .balanced) ⟨1/2, 0, 0⟩).L <
      (clampBright (OLED_THRESHOLDS .balanced) ⟨1/2, 0, 0⟩).L :=
  ⟨by norm_num, by norm_num,
   (bright_spectrum_strictly_lighter .balanced ⟨1/2, 0, 0⟩ (by norm_num) (by norm_num)).1⟩

/-! ## Analyzer: WCAG contrast (`colorAnalyzer.ts`) -/

inductive WcagLevel where
  | AAA | AA | fail
deriving DecidableEq

/-- `parseInt(s, 16)` on a two-character slice: JS parses the longest valid
prefix; an empty valid prefix yields NaN, which (unrepresentable in ℚ) is
modelled as 0 — no claim evaluates the analyzer on malformed hex. -/
def parseHex2 (c1 c2 : Char) : ℤ :=
  match hexDigitVal c1, hexDigitVal c2 with
  | some a, some b => 16 * a + b
  | some a, none => a
  | none, _ => 0

/-- The analyzer's `hexToRgb`: `parseInt(hex.slice(1,3),16)` and so on. -/
def hexToRgbTriple (hex : String) : ℤ × ℤ × ℤ :=
  let cs := hex.data
  (parseHex2 (cs.getD 1 ' ') (cs.getD 2 ' '),
   parseHex2 (cs.getD 3 ' ') (cs.getD 4 ' '),
   parseHex2 (cs.getD 5 ' ') (cs.getD 6 ' '))

/-- The analyzer's per-channel gamma linearization
(threshold 0.03928, exponent 2.4). -/
def gammaLin (ops : FloatOps) (c : ℚ) : ℚ :=
  if c ≤ 0.03928 then c / 12.92 else ops.pow24 ((c + 0.055) / 1.055)

/-- `relativeLuminance`. -/
def relativeLuminance (ops : FloatOps) (hex : String) : ℚ :=
  let t := hexToRgbTriple hex
  0.2126 * gammaLin ops ((t.1 : ℚ) / 255)
    + 0.7152 * gammaLin ops ((t.2.1 : ℚ) / 255)
    + 0.0722 * gammaLin ops ((t.2.2 : ℚ) / 255)

/-- `contrastRatio`. -/
def contrastRatio (ops : FloatOps) (hex1 hex2 : String) : ℚ :=
  let l1 := relativeLuminance ops hex1
  let l2 := relativeLuminance ops hex2
  (max l1 l2 + 0.05) / (min l1 l2 + 0.05)

/-- `wcagLevel`. -/
def wcagLevel (ratio : ℚ) : WcagLevel :=
  if 7 ≤ ratio then .AAA else if 4.5 ≤ ratio then .AA else .fail

structure WcagCompliance where
  foregroundOnBg : WcagLevel
  accentOnBg : WcagLevel
  accentBrightOnBg : WcagLevel
deriving DecidableEq

structure ContrastReport where
  wcagCompliance : WcagCompliance
  contrastScore : ℤ
deriving DecidableEq

/-- The WCAG-contrast portion of `analyzeColorScheme`: the three key pairs
against `scheme.core.background`, their compliance levels and the composite
contrast score.  (The identical computation appears in the perceptual
edition of the analyzer.) -/
def contrastAnalysis (ops : FloatOps) (scheme : ColorScheme) : ContrastReport :=
  let bg := scheme.core.background
  let fgRatio := contrastRatio ops scheme.core.foreground bg
  let accentRatio := contrastRatio ops scheme.core.accent bg
  let abRatio := contrastRatio ops scheme.core.accent_bright bg
  let wcagScore :=
    (0 + min (fgRatio / 7) 1 + min (accentRatio / 7) 1 + min (abRatio / 7) 1) / 3 * 100
  { wcagCompliance :=
      { foregroundOnBg := wcagLevel fgRatio
        accentOnBg := wcagLevel accentRatio
        accentBrightOnBg := wcagLevel abRatio }
    contrastScore := jsRound wcagScore }

/-- Claim C6: the analyzer's contrast computation uses WCAG relative
luminance `0.2126·R + 0.7152·G + 0.0722·B` on gamma-linearized channels and
ratio `(max(L1,L2)+0.05)/(min(L1,L2)+0.05)` for foreground, accent and
accent_bright against the background; it classifies AAA when the ratio is
≥ 7.0, AA when ≥ 4.5 and fail otherwise; and the composite contrast score
is the rounded mean of `min(ratio/7, 1)` over the three pairs, times 100. -/
theorem contrast_analysis_spec :
    ∀ (ops : FloatOps) (scheme : ColorScheme),
      (∀ h1 h2 : String,
        contrastRatio ops h1 h2 =
          (max (relativeLuminance ops h1) (relativeLuminance ops h2) + 0.05) /
            (min (relativeLuminance ops h1) (relativeLuminance ops h2) + 0.05)) ∧
      (∀ hex : String,
        relativeLuminance ops hex =
          0.2126 * gammaLin ops (((hexToRgbTriple hex).1 : ℚ) / 255)
            + 0.7152 * gammaLin ops (((hexToRgbTriple hex).2.1 : ℚ) / 255)
            + 0.0722 * gammaLin ops (((hexToRgbTriple hex).2.2 : ℚ) / 255)) ∧
      ((7 ≤ contrastRatio ops scheme.core.foreground scheme.core.background →
          (contrastAnalysis ops scheme).wcagCompliance.foregroundOnBg = .AAA) ∧
       (contrastRatio ops scheme.core.foreground scheme.core.background < 7 →
        4.5 ≤ contrastRatio ops scheme.core.foreground scheme.core.background →
          (contrastAnalysis ops scheme).wcagCompliance.foregroundOnBg = .AA) ∧
       (contrastRatio ops scheme.core.foreground scheme.core.background < 4.5 →
          (contrastAnalysis ops scheme).wcagCompliance.foregroundOnBg = .fail)) ∧
      ((7 ≤ contrastRatio ops scheme.core.accent scheme.core.background →
          (contrastAnalysis ops scheme).wcagCompliance.accentOnBg = .AAA) ∧
       (contrastRatio ops scheme.core.accent scheme.core.background < 7 →
        4.5 ≤ contrastRatio ops scheme.core.accent scheme.core.background →
          (contrastAnalysis ops scheme).wcagCompliance.accentOnBg = .AA) ∧
       (contrastRatio ops scheme.core.accent scheme.core.background < 4.5 →
          (contrastAnalysis ops scheme).wcagCompliance.accentOnBg = .fail)) ∧
      ((7 ≤ contrastRatio ops scheme.core.accent_bright scheme.core.background →
          (contrastAnalysis ops scheme).wcagCompliance.accentBrightOnBg = .AAA) ∧
       (contrastRatio ops scheme.core.accent_bright scheme.core.background < 7 →
        4.5 ≤ contrastRatio ops scheme.core.accent_bright scheme.core.background →
          (contrastAnalysis ops scheme).wcagCompliance.accentBrightOnBg = .AA) ∧
       (contrastRatio ops scheme.core.accent_bright scheme.core.background < 4.5 →
          (contrastAnalysis ops scheme).wcagCompliance.accentBrightOnBg = .fail)) ∧
      (contrastAnalysis ops scheme).contrastScore =
        jsRound
          ((min (contrastRatio ops scheme.core.foreground scheme.core.background / 7) 1
            + min (contrastRatio ops scheme.core.accent scheme.core.background / 7) 1
            + min (contrastRatio ops scheme.core.accent_bright scheme.core.background / 7) 1)
            / 3 * 100) := by
  intro ops scheme
  refine ⟨fun h1 h2 => rfl, fun hex => rfl, ⟨?_, ?_, ?_⟩, ⟨?_, ?_, ?_⟩, ⟨?_, ?_, ?_⟩, ?_⟩
  all_goals
    simp only [contrastAnalysis, wcagLevel]
  · intro h; rw [if_pos h]
  · intro h h45; rw [if_neg (by linarith), if_pos h45]
  · intro h; rw [if_neg (by linarith), if_neg (by linarith)]
  · intro h; rw [if_pos h]
  · intro h h45; rw [if_neg (by linarith), if_pos h45]
  · intro h; rw [if_neg (by linarith), if_neg (by linarith)]
  · intro h; rw [if_pos h]
  · intro h h45; rw [if_neg (by linarith), if_pos h45]
  · intro h; rw [if_neg (by linarith), if_neg (by linarith)]
  · congr 1
    ring

/-- A scheme whose key colors are pure white on the pure-black background,
used to exercise the contrast analysis concretely. -/
def whiteScheme : ColorScheme :=
  { name := "w", description := "", seed := "", style := .monochrome, hue := 0
    createdAt := ""
    core := { background := "#000000", foreground := "#ffffff", accent := "#ffffff"
              accent_bright := "#ffffff", cursor := "#ffffff"
              selection_bg := "#000000", selection_fg := "#ffffff" }
    terminal := { color0 := "#000000", color1 := "#000000", color2 := "#000000"
                  color3 := "#000000", color4 := "#000000", color5 := "#000000"
                  color6 := "#000000", color7 := "#000000", color8 := "#000000"
                  color9 := "#000000", color10 := "#000000", color11 := "#000000"
                  color12 := "#000000", color13 := "#000000", color14 := "#000000"
                  color15 := "#000000" } }

lemma white_black_ratio : contrastRatio witOps "#ffffff" "#000000" = 21 := by
  have h1 : hexToRgbTriple "#ffffff" = (255, 255, 255) := by decide
  have h2 : hexToRgbTriple "#000000" = (0, 0, 0) := by decide
  unfold contrastRatio relativeLuminance
  rw [h1, h2]
  norm_num [gammaLin, witOps, max_def, min_def]

/-- Witness for C6: on the white-on-black scheme the foreground ratio is 21,
classified AAA by the analysis. -/
theorem contrast_analysis_spec_witness :
    contrastRatio witOps "#ffffff" "#000000" = 21 ∧
    (contrastAnalysis witOps whiteScheme).wcagCompliance.foregroundOnBg = .AAA :=
  ⟨white_black_ratio,
   (contrast_analysis_spec witOps whiteScheme).2.2.1.1
     (by rw [show whiteScheme.core.foreground = "#ffffff" from rfl,
             show whiteScheme.core.background = "#000000" from rfl,
             white_black_ratio]; norm_num)⟩

end Chroma
